import Mathlib

/-!
Shallow embedding of src/src/utils/GameStateManager.js (class GameStateManager).

Modelling conventions:
* JS numbers used as integer counters/scores/levels are `Int`; timestamps
  produced by Date.now() are `Nat` parameters threaded into the operations
  that read the clock; volume/speed settings are `Rat`.
* JS objects used as string-keyed maps (flags, unlocks) are association
  lists; the characters map (numeric keys) is a `List (Nat × Character)`.
* The class body defines `checkEndingConditions` twice (lines 380 and 687)
  and `unlock` twice (lines 324 and 695).  Per JS class semantics the later
  definition shadows the earlier one, so the effective methods are the
  later ones; they keep the source names here (`checkEndingConditions`,
  `unlock`) while the shadowed earlier definitions are embedded as
  `checkEndingConditionsFirst` and `unlockFirst`.
* `this.state.unlockedContent` and `this.state.unlockedEndings` do not
  exist in the initial state and are created on demand; they are modelled
  as `Option` fields (none = key absent).
* A character has no `totalScore` key initially; every read in the source
  goes through `char.totalScore || 0`, so it is modelled as an `Int`
  initialised to 0, which is observably identical.
* Mutating methods return an `OpResult`: the new state, the list of events
  passed to `emit`, and the list of console.warn diagnostics.  All methods
  are total Lean functions: none of the modelled operations can throw for
  a missing character id (they guard with early returns), matching source.
-/

inductive UItem where
  | num (n : Int)
  | str (s : String)
deriving DecidableEq, Repr

structure Equipment where
  level : Int
  name : String
deriving DecidableEq, Repr

structure Character where
  name : String
  level : Int
  hp : Int
  maxHp : Int
  intimacy : Int
  battleCount : Int
  victories : Int
  equipment : Equipment
  totalScore : Int
deriving DecidableEq, Repr

structure Statistics where
  gamesPlayed : Int
  gamesWon : Int
  totalTilesCleared : Int
  maxCombo : Int
  perfectGames : Int
deriving DecidableEq, Repr

structure Player where
  name : String
  level : Int
  totalScore : Int
  totalPlayTime : Int
  achievements : List String
  statistics : Statistics
deriving DecidableEq, Repr

structure Settings where
  bgmVolume : Rat
  seVolume : Rat
  voiceVolume : Rat
  textSpeed : Rat
  autoMode : Bool
  fullscreen : Bool
  language : String
deriving DecidableEq, Repr

/-- Events passed to this.emit, with the payload fields the source passes. -/
inductive Event where
  | sceneChanged (previous current data : String)
  | characterUpdated (charId : Nat) (oldState newState : Character)
  | equipmentUpgraded (charId : Nat) (oldLevel newLevel : Int) (equipmentName : String)
  | scoreUpdated (points totalScore : Int)
  | victoryRecorded (charId : Nat)
  | defeatRecorded (charId : Nat)
  | intimacyChanged (charId : Nat) (oldValue newValue : Int)
  | flagChanged (flagName : String) (oldValue : Option Bool) (newValue : Bool)
  | unlocked (category : String) (item : UItem)
  | settingsChanged (s : Settings)
  | stateLoaded
  | gameReset
deriving DecidableEq, Repr

structure GameState where
  version : String
  playerId : String
  createdAt : Nat
  lastPlayedAt : Nat
  currentScene : String
  currentCharacter : Option Nat
  currentDialogue : Int
  completedScenes : List String
  characters : List (Nat × Character)
  player : Player
  settings : Settings
  unlocks : List (String × List UItem)
  currentGame : Option String
  flags : List (String × Bool)
  hasUnsavedProgress : Bool
  unlockedContent : Option (List UItem)
  unlockedEndings : Option (List String)
deriving DecidableEq, Repr

/-- Result of a mutating method: new state, events emitted, console.warn text. -/
structure OpResult where
  state : GameState
  events : List Event
  warnings : List String
deriving DecidableEq, Repr

/-- Assignment to a string key of a JS object map: overwrite the existing
entry or append a new one. -/
def setAssoc {β : Type} (k : String) (v : β) (l : List (String × β)) : List (String × β) :=
  if l.any (fun p => p.1 == k) then
    l.map (fun p => if p.1 = k then (p.1, v) else p)
  else l ++ [(k, v)]

/-- Assignment to an existing numeric key of the characters map.  Every
caller guards on the key being present first, matching the source. -/
def setChar (id : Nat) (c : Character) (cs : List (Nat × Character)) : List (Nat × Character) :=
  cs.map (fun p => if p.1 = id then (p.1, c) else p)

/-- Character 1, 天野美咲, from getInitialState. -/
def misaki : Character :=
  { name := "天野美咲", level := 1, hp := 100, maxHp := 100, intimacy := 0,
    battleCount := 0, victories := 0, equipment := { level := 1, name := "基礎装備" },
    totalScore := 0 }

/-- Character 2, 氷室玲奈, from getInitialState. -/
def reina : Character :=
  { name := "氷室玲奈", level := 1, hp := 120, maxHp := 120, intimacy := 0,
    battleCount := 0, victories := 0, equipment := { level := 1, name := "制服" },
    totalScore := 0 }

/-- Character 3, 紅月妖, from getInitialState. -/
def kurotsuki : Character :=
  { name := "紅月妖", level := 1, hp := 150, maxHp := 150, intimacy := 0,
    battleCount := 0, victories := 0, equipment := { level := 1, name := "生徒会服" },
    totalScore := 0 }

/-- getInitialState, parameterised by the generated playerId and Date.now(). -/
def getInitialState (playerId : String) (now : Nat) : GameState :=
  { version := "1.0.0"
    playerId := playerId
    createdAt := now
    lastPlayedAt := now
    currentScene := "title"
    currentCharacter := none
    currentDialogue := 0
    completedScenes := []
    characters := [(1, misaki), (2, reina), (3, kurotsuki)]
    player :=
      { name := "主人公", level := 1, totalScore := 0, totalPlayTime := 0,
        achievements := [],
        statistics :=
          { gamesPlayed := 0, gamesWon := 0, totalTilesCleared := 0,
            maxCombo := 0, perfectGames := 0 } }
    settings :=
      { bgmVolume := 7/10, seVolume := 4/5, voiceVolume := 4/5, textSpeed := 1,
        autoMode := false, fullscreen := false, language := "ja" }
    unlocks :=
      [("characters", [UItem.num 1]),
       ("scenes", [UItem.str "title", UItem.str "scene_1"]),
       ("endings", []), ("gallery", []), ("achievements", [])]
    currentGame := none
    flags := []
    hasUnsavedProgress := false
    unlockedContent := none
    unlockedEndings := none }

/-- markUnsaved: sets the dirty flag and refreshes lastPlayedAt with Date.now(). -/
def markUnsaved (now : Nat) (st : GameState) : GameState :=
  { st with hasUnsavedProgress := true, lastPlayedAt := now }

/-- Partial character object for updateCharacter (shallow merge, so a
present equipment field replaces the whole nested equipment object). -/
structure CharacterUpdate where
  name : Option String := none
  level : Option Int := none
  hp : Option Int := none
  maxHp : Option Int := none
  intimacy : Option Int := none
  battleCount : Option Int := none
  victories : Option Int := none
  equipment : Option Equipment := none
  totalScore : Option Int := none
deriving DecidableEq, Repr

/-- Shallow spread of updates over a character object. -/
def applyCharacterUpdate (c : Character) (u : CharacterUpdate) : Character :=
  { name := u.name.getD c.name
    level := u.level.getD c.level
    hp := u.hp.getD c.hp
    maxHp := u.maxHp.getD c.maxHp
    intimacy := u.intimacy.getD c.intimacy
    battleCount := u.battleCount.getD c.battleCount
    victories := u.victories.getD c.victories
    equipment := u.equipment.getD c.equipment
    totalScore := u.totalScore.getD c.totalScore }

/-- updateCharacter: warns and is a no-op on an unknown id; otherwise
shallow-merges, marks unsaved and emits characterUpdated with old and new. -/
def updateCharacter (st : GameState) (charId : Nat) (updates : CharacterUpdate)
    (now : Nat) : OpResult :=
  match List.lookup charId st.characters with
  | none =>
      { state := st, events := [],
        warnings := ["Character " ++ toString charId ++ " not found"] }
  | some oldState =>
      let newState := applyCharacterUpdate oldState updates
      let st1 := markUnsaved now { st with characters := setChar charId newState st.characters }
      { state := st1, events := [Event.characterUpdated charId oldState newState],
        warnings := [] }

/-- upgradeEquipment: silent no-op on an unknown id (no warning in source);
otherwise stores newLevel/equipmentName unvalidated, marks unsaved and
emits equipmentUpgraded.  applyEquipmentBonuses has an empty body in the
source, so it contributes nothing. -/
def upgradeEquipment (st : GameState) (charId : Nat) (newLevel : Int)
    (equipmentName : String) (now : Nat) : OpResult :=
  match List.lookup charId st.characters with
  | none => { state := st, events := [], warnings := [] }
  | some char =>
      let oldLevel := char.equipment.level
      let char1 := { char with equipment := { level := newLevel, name := equipmentName } }
      let st1 := markUnsaved now { st with characters := setChar charId char1 st.characters }
      { state := st1,
        events := [Event.equipmentUpgraded charId oldLevel newLevel equipmentName],
        warnings := [] }

/-- updateIntimacy: silent no-op on an unknown id; otherwise clamps the new
intimacy into [0,100] with Math.max/Math.min, marks unsaved and emits
intimacyChanged with old and new values. -/
def updateIntimacy (st : GameState) (charId : Nat) (change : Int) (now : Nat) : OpResult :=
  match List.lookup charId st.characters with
  | none => { state := st, events := [], warnings := [] }
  | some c =>
      let oldIntimacy := c.intimacy
      let newValue := max 0 (min 100 (oldIntimacy + change))
      let st1 := markUnsaved now
        { st with characters := setChar charId { c with intimacy := newValue } st.characters }
      { state := st1, events := [Event.intimacyChanged charId oldIntimacy newValue],
        warnings := [] }

/-- getFlag: reads a flag, returning the default when the key is absent. -/
def getFlag (st : GameState) (flagName : String) (defaultValue : Bool) : Bool :=
  (List.lookup flagName st.flags).getD defaultValue

/-- unlockFirst: the earlier `unlock(category, item)` definition at lines
324-337, which is shadowed by the later single-argument definition and is
therefore never the method that runs.  It creates the category array when
the key is missing, and on first insertion of the item pushes it, marks
unsaved and emits one unlocked event; a repeat call inserts nothing and
emits nothing. -/
def unlockFirst (st : GameState) (category : String) (item : UItem) (now : Nat) : OpResult :=
  let unlocks1 :=
    match List.lookup category st.unlocks with
    | some _ => st.unlocks
    | none => setAssoc category ([] : List UItem) st.unlocks
  let arr := (List.lookup category unlocks1).getD []
  if arr.contains item then
    { state := { st with unlocks := unlocks1 }, events := [], warnings := [] }
  else
    { state := markUnsaved now { st with unlocks := setAssoc category (arr ++ [item]) unlocks1 },
      events := [Event.unlocked category item], warnings := [] }

/-- isUnlocked: membership test in a category of the unlocks table. -/
def isUnlocked (st : GameState) (category : String) (item : UItem) : Bool :=
  match List.lookup category st.unlocks with
  | some arr => arr.contains item
  | none => false

/-- unlock: the later definition at lines 695-703 and hence the effective
method of the class.  It takes a single `content` argument (a call such as
unlock(category, item) binds content := category and drops the item), pushes
the content into state.unlockedContent on first insertion, marks unsaved,
and never emits any event. -/
def unlock (st : GameState) (content : UItem) (now : Nat) : OpResult :=
  let arr := st.unlockedContent.getD []
  let st0 := { st with unlockedContent := some arr }
  if arr.contains content then
    { state := st0, events := [], warnings := [] }
  else
    { state := markUnsaved now { st0 with unlockedContent := some (arr ++ [content]) },
      events := [], warnings := [] }

/-- Result of checkAchievements: the mutated state and the returned array. -/
structure CheckAchResult where
  state : GameState
  returned : List String
deriving DecidableEq, Repr

/-- checkAchievements: collects the identifiers of rules that hold and are
not yet members of unlocks.achievements, then calls
this.unlock(achievements, a) for each — which dispatches to the effective
single-argument unlock, so each call pushes the string "achievements" into
unlockedContent and never touches unlocks.achievements. -/
def checkAchievements (st : GameState) (now : Nat) : CheckAchResult :=
  let achArr := (List.lookup "achievements" st.unlocks).getD []
  let a1 : List String :=
    if st.player.statistics.gamesWon ≥ 10 && !(achArr.contains (UItem.str "win_10")) then
      ["win_10"] else []
  let a2 : List String :=
    if st.player.statistics.perfectGames ≥ 1 && !(achArr.contains (UItem.str "perfect_1")) then
      ["perfect_1"] else []
  let allMaxLevel := st.characters.all (fun p => decide (p.2.equipment.level ≥ 5))
  let a3 : List String :=
    if allMaxLevel && !(achArr.contains (UItem.str "all_max_equipment")) then
      ["all_max_equipment"] else []
  let achievements := a1 ++ a2 ++ a3
  let stFinal := achievements.foldl
    (fun s _ => (unlock s (UItem.str "achievements") now).state) st
  { state := stFinal, returned := achievements }

/-- The four ending tiers of the earlier checkEndingConditions definition. -/
inductive Ending where
  | TRUE
  | SECRET
  | NORMAL
  | BAD
deriving DecidableEq, Repr

/-- checkEndingConditionsFirst: the earlier checkEndingConditions at lines
380-411, shadowed by the later definition and therefore never the method
that runs.  It evaluates the TRUE, SECRET, NORMAL predicates in that order
and returns the first ending tier that matches, defaulting to BAD. -/
def checkEndingConditionsFirst (st : GameState) : Ending :=
  let chars := st.characters
  let allMaxEquipment := chars.all (fun p => decide (p.2.equipment.level ≥ 5))
  let allMaxIntimacy := chars.all (fun p => decide (p.2.intimacy ≥ 100))
  let highScore := decide (st.player.totalScore ≥ 500000)
  if allMaxEquipment && allMaxIntimacy && highScore then Ending.TRUE
  else
    let perfectGames := decide (st.player.statistics.perfectGames ≥ 3)
    let noDefeats := chars.all (fun p => decide (p.2.victories ≥ p.2.battleCount))
    if perfectGames && noDefeats && isUnlocked st "achievements" (UItem.str "all_max_equipment") then
      Ending.SECRET
    else
      let allCharsChallenged := chars.all (fun p => decide (p.2.battleCount > 0))
      let someVictories := chars.any (fun p => decide (p.2.victories > 0))
      if allCharsChallenged && someVictories then Ending.NORMAL else Ending.BAD

/-- getIntimacy: char ? char.intimacy or 0 when falsy : 0.  On an Int the
JS expression char.intimacy or 0 is the identity, so this is a plain read. -/
def getIntimacy (st : GameState) (characterId : Nat) : Int :=
  match List.lookup characterId st.characters with
  | some c => c.intimacy
  | none => 0

/-- increaseIntimacy: when the id exists, sets intimacy to
Math.min(100, intimacy + amount) — there is no lower clamp in this method —
and marks unsaved.  No event, no warning. -/
def increaseIntimacy (st : GameState) (characterId : Nat) (amount : Int) (now : Nat) : OpResult :=
  match List.lookup characterId st.characters with
  | none => { state := st, events := [], warnings := [] }
  | some c =>
      let newValue := min 100 (c.intimacy + amount)
      let st1 := markUnsaved now
        { st with characters := setChar characterId { c with intimacy := newValue } st.characters }
      { state := st1, events := [], warnings := [] }

/-- getCharacterLevel: char ? (char.equipment.level or 1 when falsy) : 1.
A stored level of 0 is falsy in JS, hence reads back as 1. -/
def getCharacterLevel (st : GameState) (characterId : Nat) : Int :=
  match List.lookup characterId st.characters with
  | some c => if c.equipment.level = 0 then 1 else c.equipment.level
  | none => 1

/-- setCharacterLevel: when the id exists, stores the level unvalidated and
marks unsaved.  No event, no warning. -/
def setCharacterLevel (st : GameState) (characterId : Nat) (level : Int) (now : Nat) : OpResult :=
  match List.lookup characterId st.characters with
  | none => { state := st, events := [], warnings := [] }
  | some c =>
      let st1 := markUnsaved now
        { st with characters :=
            (setChar characterId { c with equipment := { c.equipment with level := level } }
              st.characters) }
      { state := st1, events := [], warnings := [] }

/-- upgradeCharacterEquipment: reads the current level through the
level-or-1 falsy default, increments it when below 5 (marking unsaved and
returning true), otherwise changes nothing and returns false.  No event. -/
def upgradeCharacterEquipment (st : GameState) (characterId : Nat) (now : Nat) :
    OpResult × Bool :=
  match List.lookup characterId st.characters with
  | none => ({ state := st, events := [], warnings := [] }, false)
  | some c =>
      let currentLevel := if c.equipment.level = 0 then 1 else c.equipment.level
      if currentLevel < 5 then
        ({ state := markUnsaved now
              { st with characters :=
                  (setChar characterId
                    { c with equipment := { c.equipment with level := currentLevel + 1 } }
                    st.characters) },
           events := [], warnings := [] }, true)
      else ({ state := st, events := [], warnings := [] }, false)

/-- recordBattleResult: silent no-op on an unknown id; otherwise bumps the
character battleCount and cumulative score, victories on win or
perfect_win, global perfectGames on perfect_win, gamesPlayed always,
gamesWon on win or perfect_win, player totalScore, and marks unsaved.
No event is emitted. -/
def recordBattleResult (st : GameState) (characterId : Nat) (result : String)
    (score : Int) (now : Nat) : OpResult :=
  match List.lookup characterId st.characters with
  | none => { state := st, events := [], warnings := [] }
  | some c =>
      let isWin := result == "win" || result == "perfect_win"
      let c1 := { c with battleCount := c.battleCount + 1, totalScore := c.totalScore + score }
      let c2 := if isWin then { c1 with victories := c1.victories + 1 } else c1
      let stats := st.player.statistics
      let stats1 :=
        if result == "perfect_win" then { stats with perfectGames := stats.perfectGames + 1 }
        else stats
      let stats2 := { stats1 with gamesPlayed := stats1.gamesPlayed + 1 }
      let stats3 := if isWin then { stats2 with gamesWon := stats2.gamesWon + 1 } else stats2
      let p1 := { st.player with statistics := stats3, totalScore := st.player.totalScore + score }
      let st1 := { st with characters := setChar characterId c2 st.characters, player := p1 }
      { state := markUnsaved now st1, events := [], warnings := [] }

/-- getDefeatedCharacters: ids of characters with victories > 0. -/
def getDefeatedCharacters (st : GameState) : List Nat :=
  (st.characters.filter (fun p => decide (p.2.victories > 0))).map (fun p => p.1)

/-- checkEndingConditions: the later definition at lines 687-690 and hence
the effective method of the class.  It returns the boolean
defeatedCount >= 3, not one of the four ending tiers. -/
def checkEndingConditions (st : GameState) : Bool :=
  decide ((getDefeatedCharacters st).length ≥ 3)

/-- A JS object handed to loadState or produced by getCurrentState: every
top-level key may be present or absent.  For the two keys that are also
optional inside the live state (unlockedContent, unlockedEndings) the field
is the key itself: none = key absent. -/
structure Snapshot where
  version : Option String := none
  playerId : Option String := none
  createdAt : Option Nat := none
  lastPlayedAt : Option Nat := none
  currentScene : Option String := none
  currentCharacter : Option (Option Nat) := none
  currentDialogue : Option Int := none
  completedScenes : Option (List String) := none
  characters : Option (List (Nat × Character)) := none
  player : Option Player := none
  settings : Option Settings := none
  unlocks : Option (List (String × List UItem)) := none
  currentGame : Option (Option String) := none
  flags : Option (List (String × Bool)) := none
  hasUnsavedProgress : Option Bool := none
  unlockedContent : Option (List UItem) := none
  unlockedEndings : Option (List String) := none
deriving DecidableEq, Repr

/-- View of a full state tree as a plain object: every ordinary key is
present; the on-demand keys are present exactly when they exist in the
state. -/
def stateToObject (g : GameState) : Snapshot :=
  { version := some g.version
    playerId := some g.playerId
    createdAt := some g.createdAt
    lastPlayedAt := some g.lastPlayedAt
    currentScene := some g.currentScene
    currentCharacter := some g.currentCharacter
    currentDialogue := some g.currentDialogue
    completedScenes := some g.completedScenes
    characters := some g.characters
    player := some g.player
    settings := some g.settings
    unlocks := some g.unlocks
    currentGame := some g.currentGame
    flags := some g.flags
    hasUnsavedProgress := some g.hasUnsavedProgress
    unlockedContent := g.unlockedContent
    unlockedEndings := g.unlockedEndings }

/-- getCurrentState: JSON.parse(JSON.stringify(this.state)), a deep
self-contained copy of the tree; as data it is the tree viewed as a plain
object. -/
def getCurrentState (st : GameState) : Snapshot :=
  stateToObject st

/-- Top-level shallow spread of a possibly partial object over a live tree,
as in the merged assignment inside loadState: a present key wins, an absent
key keeps the live value. -/
def mergeState (live : GameState) (p : Snapshot) : GameState :=
  { version := p.version.getD live.version
    playerId := p.playerId.getD live.playerId
    createdAt := p.createdAt.getD live.createdAt
    lastPlayedAt := p.lastPlayedAt.getD live.lastPlayedAt
    currentScene := p.currentScene.getD live.currentScene
    currentCharacter := p.currentCharacter.getD live.currentCharacter
    currentDialogue := p.currentDialogue.getD live.currentDialogue
    completedScenes := p.completedScenes.getD live.completedScenes
    characters := p.characters.getD live.characters
    player := p.player.getD live.player
    settings := p.settings.getD live.settings
    unlocks := p.unlocks.getD live.unlocks
    currentGame := p.currentGame.getD live.currentGame
    flags := p.flags.getD live.flags
    hasUnsavedProgress := p.hasUnsavedProgress.getD live.hasUnsavedProgress
    unlockedContent :=
      match p.unlockedContent with
      | some x => some x
      | none => live.unlockedContent
    unlockedEndings :=
      match p.unlockedEndings with
      | some x => some x
      | none => live.unlockedEndings }

/-- migrateState: spread of the old snapshot over a fresh initial tree
(snapshot wins on conflict, defaults fill the gaps).  getInitialState reads
the clock and generates a player id, hence the extra parameters. -/
def migrateState (oldState : Snapshot) (freshId : String) (now : Nat) : GameState :=
  mergeState (getInitialState freshId now) oldState

/-- The failure surfaced by loadState: reading savedState.version throws a
TypeError when the snapshot is null or undefined, and loadState rethrows
it.  No later step of the body can throw. -/
inductive LoadErr where
  | nullSnapshot
deriving DecidableEq, Repr

/-- Effect of a loadState call on the store: the state field is this.state
after the call (unchanged when the call threw), together with the events
emitted and the surfaced error if any. -/
structure LoadOutcome where
  state : GameState
  events : List Event
  err : Option LoadErr
deriving DecidableEq, Repr

/-- loadState: version check (a mismatching or absent version triggers
migrateState), then a single wholesale spread-assignment of the saved
object over the live tree, then lastPlayedAt is refreshed,
hasUnsavedProgress cleared and stateLoaded emitted.  The only throwing
point is the savedState.version read on a null snapshot, which happens
before any mutation, so a failed call leaves the tree untouched. -/
def loadState (live : GameState) (savedState : Option Snapshot) (freshId : String)
    (now : Nat) : LoadOutcome :=
  match savedState with
  | none => { state := live, events := [], err := some LoadErr.nullSnapshot }
  | some p =>
      let p1 := if p.version ≠ some live.version
                then stateToObject (migrateState p freshId now) else p
      let merged := mergeState live p1
      { state := { merged with lastPlayedAt := now, hasUnsavedProgress := false },
        events := [Event.stateLoaded], err := none }

/-- A session started with a fixed player id at time 0, used as the
concrete base state of the witnesses and counterexamples. -/
def s0 : GameState := getInitialState "player_demo_1" 0

/-- A character pushed to the caps used by the TRUE and SECRET ending
predicates: equipment level 5, intimacy 100, three fights, three wins. -/
def maxedChar (c : Character) : Character :=
  { c with intimacy := 100, battleCount := 3, victories := 3,
           equipment := { c.equipment with level := 5 } }

/-- Player record with totalScore 500000 and perfectGames 3. -/
def maxedPlayer : Player :=
  { name := "主人公", level := 1, totalScore := 500000, totalPlayTime := 0,
    achievements := [],
    statistics :=
      { gamesPlayed := 6, gamesWon := 6, totalTilesCleared := 0,
        maxCombo := 0, perfectGames := 3 } }

/-- A state satisfying the TRUE-ending predicate and the SECRET-ending
predicate of the earlier checkEndingConditions simultaneously. -/
def sTS : GameState :=
  { s0 with
    characters := [(1, maxedChar misaki), (2, maxedChar reina), (3, maxedChar kurotsuki)],
    player := maxedPlayer,
    unlocks :=
      [("characters", [UItem.num 1]),
       ("scenes", [UItem.str "title", UItem.str "scene_1"]),
       ("endings", []), ("gallery", []),
       ("achievements", [UItem.str "all_max_equipment"])] }

/-- Statistics with exactly one perfect game. -/
def perfectStats : Statistics :=
  { gamesPlayed := 1, gamesWon := 1, totalTilesCleared := 0, maxCombo := 0, perfectGames := 1 }

/-- Initial-like state whose statistics record one perfect game, so that
the perfect_1 achievement rule is satisfied. -/
def sP : GameState :=
  { s0 with player := { name := "主人公", level := 1, totalScore := 1000, totalPlayTime := 0, achievements := [], statistics := perfectStats } }

/-- An old-version snapshot that carries a scene and completed list but no
flags key, as in the migration scenario. -/
def pOld : Snapshot :=
  { version := some "0.9.0", currentScene := some "scene_2",
    completedScenes := some ["title"] }

/-- Looking up the written key after a setChar assignment returns the new
character, provided the key was present before. -/
theorem lookup_setChar (id : Nat) (c : Character) (cs : List (Nat × Character)) (x : Character)
    (h : List.lookup id cs = some x) :
    List.lookup id (setChar id c cs) = some c := by
  induction cs with
  | nil => simp at h
  | cons hd tl ih =>
    obtain ⟨k, v⟩ := hd
    by_cases hk : k = id
    · subst hk
      simp [setChar, List.lookup_cons]
    · have hk3 : (id == k) = false := by
        simp only [beq_eq_false_iff_ne]
        exact fun hkk => hk hkk.symm
      rw [List.lookup_cons, hk3] at h
      simp only [setChar, List.map_cons, if_neg hk]
      rw [List.lookup_cons, hk3]
      simpa [setChar] using ih h

/-- C1: the state sTS satisfies the TRUE-ending predicate (every equipment
level at least 5, every intimacy at least 100, totalScore at least 500000)
and the SECRET-ending predicate (perfectGames at least 3, no character with
fewer victories than battles, all_max_equipment unlocked) simultaneously.
The shadowed earlier checkEndingConditions indeed resolves it to TRUE by
priority, but the effective checkEndingConditions of the class is the later
definition, which returns the boolean defeatedCount >= 3 — here true — and
never one of the four ending tiers, so the ending-resolution operation the
claim describes is not the one that runs. -/
theorem c1_ending_shadowing :
    sTS.characters.all (fun p => decide (p.2.equipment.level ≥ 5)) = true ∧
    sTS.characters.all (fun p => decide (p.2.intimacy ≥ 100)) = true ∧
    sTS.player.totalScore ≥ 500000 ∧
    sTS.player.statistics.perfectGames ≥ 3 ∧
    sTS.characters.all (fun p => decide (p.2.victories ≥ p.2.battleCount)) = true ∧
    isUnlocked sTS "achievements" (UItem.str "all_max_equipment") = true ∧
    checkEndingConditionsFirst sTS = Ending.TRUE ∧
    checkEndingConditions sTS = true := by
  refine ⟨rfl, rfl, by decide, by decide, rfl, rfl, rfl, rfl⟩

/-- C2: the effective unlock of the class is the later single-argument
definition, so a call written unlock(gallery, cg1) binds content := gallery
and drops the item.  Calling it twice from the initial state emits zero
unlocked events (the claim expects exactly one), never inserts cg1 into
unlocks.gallery (the claim expects exactly one membership), and instead
pushes the category string itself into unlockedContent once.  The shadowed
two-argument definition would have behaved exactly as the claim states:
one membership, one event on the first call, silent no-op on the repeat. -/
theorem c2_unlock_shadowing :
    (unlock s0 (UItem.str "gallery") 5).events = [] ∧
    (unlock (unlock s0 (UItem.str "gallery") 5).state (UItem.str "gallery") 6).events = [] ∧
    isUnlocked (unlock (unlock s0 (UItem.str "gallery") 5).state (UItem.str "gallery") 6).state
      "gallery" (UItem.str "cg1") = false ∧
    (unlock (unlock s0 (UItem.str "gallery") 5).state (UItem.str "gallery") 6).state.unlockedContent
      = some [UItem.str "gallery"] ∧
    (unlockFirst s0 "gallery" (UItem.str "cg1") 5).events
      = [Event.unlocked "gallery" (UItem.str "cg1")] ∧
    (unlockFirst (unlockFirst s0 "gallery" (UItem.str "cg1") 5).state
      "gallery" (UItem.str "cg1") 6).events = [] ∧
    isUnlocked (unlockFirst (unlockFirst s0 "gallery" (UItem.str "cg1") 5).state
      "gallery" (UItem.str "cg1") 6).state "gallery" (UItem.str "cg1") = true := by
  refine ⟨rfl, rfl, rfl, rfl, rfl, rfl, rfl⟩

/-- C6: on a state with one perfect game, checkAchievements returns
perfect_1, but the unlock call it makes dispatches to the effective
single-argument unlock, which pushes the string achievements into
unlockedContent and never inserts perfect_1 into unlocks.achievements.
A second evaluation therefore reports perfect_1 again, contradicting the
claim that an identifier is never re-reported. -/
theorem c6_perfect_reported_twice :
    (checkAchievements sP 5).returned = ["perfect_1"] ∧
    (checkAchievements (checkAchievements sP 5).state 6).returned = ["perfect_1"] ∧
    List.lookup "achievements" (checkAchievements sP 5).state.unlocks = some [] ∧
    (checkAchievements sP 5).state.unlockedContent = some [UItem.str "achievements"] := by
  refine ⟨rfl, rfl, rfl, rfl⟩

/-- C3 counterexample: increaseIntimacy applies only the upper clamp
Math.min(100, _), so a negative amount drives intimacy below 0: from the
initial intimacy 0 of character 1, increaseIntimacy(1, -50) leaves -50,
outside [0,100]. -/
theorem c3_counterexample :
    getIntimacy (increaseIntimacy s0 1 (-50) 5).state 1 = -50 ∧
    ¬ (0 ≤ getIntimacy (increaseIntimacy s0 1 (-50) 5).state 1) := by
  refine ⟨rfl, by decide⟩

/-- C4 counterexample: upgradeEquipment stores the requested level without
any validation or clamping: level 99 is applied verbatim (outside [1,5]),
and a later call with a smaller level decreases the stored level, so the
level is not monotonically non-decreasing either. -/
theorem c4_counterexample :
    getCharacterLevel (upgradeEquipment s0 1 99 "上位装備" 5).state 1 = 99 ∧
    ¬ (getCharacterLevel (upgradeEquipment s0 1 99 "上位装備" 5).state 1 ≤ 5) ∧
    getCharacterLevel
      (upgradeEquipment (upgradeEquipment s0 1 3 "a" 5).state 1 2 "b" 6).state 1 = 2 := by
  refine ⟨rfl, by decide, rfl⟩

/-- C10 counterexample: upgradeEquipment with the unknown character id 99
is a silent no-op: the state is untouched, but no warning-level diagnostic
is produced (only updateCharacter warns), contradicting the claim that the
bad reference is user-visibly reported for every mutation operation. -/
theorem c10_counterexample :
    (upgradeEquipment s0 99 3 "強化装備" 5).state = s0 ∧
    (upgradeEquipment s0 99 3 "強化装備" 5).warnings = [] := by
  refine ⟨rfl, rfl⟩

/-- C3 amended: updateIntimacy clamps into [0,100] for every delta and
every existing character; increaseIntimacy clamps only from above, so its
result lies in [0,100] provided the prior intimacy and the amount are
non-negative. -/
theorem c3_amended (st : GameState) (id : Nat) (c : Character) (delta amt : Int) (now : Nat)
    (hc : List.lookup id st.characters = some c) (h0 : 0 ≤ c.intimacy) (ha : 0 ≤ amt) :
    (0 ≤ getIntimacy (updateIntimacy st id delta now).state id ∧
     getIntimacy (updateIntimacy st id delta now).state id ≤ 100) ∧
    (0 ≤ getIntimacy (increaseIntimacy st id amt now).state id ∧
     getIntimacy (increaseIntimacy st id amt now).state id ≤ 100) := by
  constructor
  · have hset := lookup_setChar id { c with intimacy := max 0 (min 100 (c.intimacy + delta)) }
      st.characters c hc
    simp only [updateIntimacy, hc, getIntimacy, markUnsaved, hset]
    omega
  · have hset := lookup_setChar id { c with intimacy := min 100 (c.intimacy + amt) }
      st.characters c hc
    simp only [increaseIntimacy, hc, getIntimacy, markUnsaved, hset]
    omega

/-- C4 amended: upgradeCharacterEquipment keeps the equipment level inside
[1,5] and never decreases it, for every character whose level is already in
range; upgradeEquipment (and likewise setCharacterLevel) stores the
requested level verbatim, without validation or clamping. -/
theorem c4_amended (st : GameState) (id : Nat) (c : Character) (newLevel : Int)
    (eqName : String) (now : Nat)
    (hc : List.lookup id st.characters = some c)
    (h1 : 1 ≤ c.equipment.level) (h5 : c.equipment.level ≤ 5) :
    (1 ≤ getCharacterLevel (upgradeCharacterEquipment st id now).1.state id ∧
     getCharacterLevel (upgradeCharacterEquipment st id now).1.state id ≤ 5 ∧
     getCharacterLevel st id ≤ getCharacterLevel (upgradeCharacterEquipment st id now).1.state id) ∧
    Option.map (fun ch => ch.equipment.level)
      (List.lookup id (upgradeEquipment st id newLevel eqName now).state.characters)
      = some newLevel ∧
    Option.map (fun ch => ch.equipment.level)
      (List.lookup id (setCharacterLevel st id newLevel now).state.characters)
      = some newLevel := by
  have hne : ¬ (c.equipment.level = 0) := by omega
  refine ⟨?_, ?_, ?_⟩
  · have hlevel : getCharacterLevel st id = c.equipment.level := by
      simp only [getCharacterLevel, hc, if_neg hne]
    by_cases hlt : c.equipment.level < 5
    · have hset := lookup_setChar id
        { c with equipment := { c.equipment with level := c.equipment.level + 1 } }
        st.characters c hc
      have hne2 : ¬ (c.equipment.level + 1 = 0) := by omega
      simp only [upgradeCharacterEquipment, hc, if_neg hne, if_pos hlt, markUnsaved,
        getCharacterLevel, hset, if_neg hne2, hlevel]
      omega
    · simp only [upgradeCharacterEquipment, hc, if_neg hne, if_neg hlt, hlevel,
        getCharacterLevel]
      omega
  · have hset := lookup_setChar id
      { c with equipment := { level := newLevel, name := eqName } } st.characters c hc
    simp only [upgradeEquipment, hc, markUnsaved, hset]
    rfl
  · have hset := lookup_setChar id
      { c with equipment := { c.equipment with level := newLevel } } st.characters c hc
    simp only [setCharacterLevel, hc, markUnsaved, hset]
    rfl

/-- C10 amended: every mutation that targets a character id checks presence
first and is a total no-op on an unknown id — the state is untouched, no
event is emitted and nothing can be thrown — but only updateCharacter
produces the warning diagnostic; upgradeEquipment, updateIntimacy,
increaseIntimacy and recordBattleResult return silently. -/
theorem c10_amended (st : GameState) (id : Nat) (u : CharacterUpdate) (newLevel : Int)
    (eqName : String) (delta amt : Int) (result : String) (score : Int) (now : Nat)
    (h : List.lookup id st.characters = none) :
    (updateCharacter st id u now).state = st ∧
    (updateCharacter st id u now).events = [] ∧
    (updateCharacter st id u now).warnings = ["Character " ++ toString id ++ " not found"] ∧
    (upgradeEquipment st id newLevel eqName now).state = st ∧
    (upgradeEquipment st id newLevel eqName now).events = [] ∧
    (upgradeEquipment st id newLevel eqName now).warnings = [] ∧
    (updateIntimacy st id delta now).state = st ∧
    (updateIntimacy st id delta now).events = [] ∧
    (updateIntimacy st id delta now).warnings = [] ∧
    (increaseIntimacy st id amt now).state = st ∧
    (increaseIntimacy st id amt now).events = [] ∧
    (increaseIntimacy st id amt now).warnings = [] ∧
    (recordBattleResult st id result score now).state = st ∧
    (recordBattleResult st id result score now).events = [] ∧
    (recordBattleResult st id result score now).warnings = [] := by
  simp [updateCharacter, upgradeEquipment, updateIntimacy, increaseIntimacy,
    recordBattleResult, h]

/-- Spreading a state viewed as a plain object back over itself is the
identity, the key step of the load round trip on a version match. -/
theorem mergeState_stateToObject (g : GameState) : mergeState g (stateToObject g) = g := by
  obtain ⟨v, pid, ca, lp, cs, cc, cd, comp, chs, pl, se, un, cg, fl, dirty, uc, ue⟩ := g
  cases uc <;> cases ue <;> rfl

/-- C7: loadState either fails before touching anything — a null snapshot
makes the savedState.version read throw, the error is surfaced and the
live tree is returned unchanged — or it completes the whole swap: no
error, one stateLoaded event, dirty flag cleared and lastPlayedAt
refreshed.  There is no partially-applied outcome. -/
theorem c7_load_atomic (live : GameState) (savedState : Option Snapshot)
    (freshId : String) (now : Nat) :
    (savedState = none →
       loadState live savedState freshId now
         = { state := live, events := [], err := some LoadErr.nullSnapshot }) ∧
    (∀ p, savedState = some p →
       (loadState live savedState freshId now).err = none ∧
       (loadState live savedState freshId now).events = [Event.stateLoaded] ∧
       (loadState live savedState freshId now).state.hasUnsavedProgress = false ∧
       (loadState live savedState freshId now).state.lastPlayedAt = now) := by
  constructor
  · rintro rfl
    rfl
  · rintro p rfl
    exact ⟨rfl, rfl, rfl, rfl⟩

/-- C9: the round trip loadState(getCurrentState(S)) on a store holding S
matches the version, skips migration, and reproduces S exactly except that
lastPlayedAt is refreshed and hasUnsavedProgress is cleared, emitting one
stateLoaded event. -/
theorem c9_round_trip (S : GameState) (freshId : String) (now : Nat) :
    loadState S (some (getCurrentState S)) freshId now
      = { state := { S with lastPlayedAt := now, hasUnsavedProgress := false },
          events := [Event.stateLoaded], err := none } := by
  have hif : (if (stateToObject S).version ≠ some S.version
              then stateToObject (migrateState (stateToObject S) freshId now)
              else stateToObject S) = stateToObject S := by
    simp [stateToObject]
  simp only [loadState, getCurrentState, hif, mergeState_stateToObject S]

/-- C8: on a version mismatch loadState migrates by overlaying the snapshot
on a fresh default tree; a snapshot with no flags key loads successfully
with flags reset to the empty default, and every top-level field present in
the snapshot keeps its snapshot value in the loaded tree (lastPlayedAt and
hasUnsavedProgress excepted: load itself refreshes those by contract). -/
theorem c8_migration (live : GameState) (p : Snapshot) (freshId : String) (now : Nat)
    (hver : p.version ≠ some live.version) (hflags : p.flags = none) :
    (loadState live (some p) freshId now).err = none ∧
    (loadState live (some p) freshId now).state.flags = [] ∧
    (∀ v, p.version = some v → (loadState live (some p) freshId now).state.version = v) ∧
    (∀ v, p.playerId = some v → (loadState live (some p) freshId now).state.playerId = v) ∧
    (∀ v, p.createdAt = some v → (loadState live (some p) freshId now).state.createdAt = v) ∧
    (∀ v, p.currentScene = some v →
       (loadState live (some p) freshId now).state.currentScene = v) ∧
    (∀ v, p.currentCharacter = some v →
       (loadState live (some p) freshId now).state.currentCharacter = v) ∧
    (∀ v, p.currentDialogue = some v →
       (loadState live (some p) freshId now).state.currentDialogue = v) ∧
    (∀ v, p.completedScenes = some v →
       (loadState live (some p) freshId now).state.completedScenes = v) ∧
    (∀ v, p.characters = some v →
       (loadState live (some p) freshId now).state.characters = v) ∧
    (∀ v, p.player = some v → (loadState live (some p) freshId now).state.player = v) ∧
    (∀ v, p.settings = some v → (loadState live (some p) freshId now).state.settings = v) ∧
    (∀ v, p.unlocks = some v → (loadState live (some p) freshId now).state.unlocks = v) ∧
    (∀ v, p.currentGame = some v →
       (loadState live (some p) freshId now).state.currentGame = v) ∧
    (∀ v, p.unlockedContent = some v →
       (loadState live (some p) freshId now).state.unlockedContent = some v) ∧
    (∀ v, p.unlockedEndings = some v →
       (loadState live (some p) freshId now).state.unlockedEndings = some v) := by
  have hif : (if p.version ≠ some live.version
              then stateToObject (migrateState p freshId now) else p)
             = stateToObject (migrateState p freshId now) := if_pos hver
  have hls : loadState live (some p) freshId now
      = { state := { mergeState live (stateToObject (migrateState p freshId now)) with
                     lastPlayedAt := now, hasUnsavedProgress := false },
          events := [Event.stateLoaded], err := none } := by
    simp only [loadState]
    rw [hif]
  refine ⟨?_, ?_, ?_, ?_, ?_, ?_, ?_, ?_, ?_, ?_, ?_, ?_, ?_, ?_, ?_, ?_⟩
  · rw [hls]
  · simp [hls, mergeState, stateToObject, migrateState, getInitialState, hflags]
  all_goals intro v hv
  all_goals simp [hls, mergeState, stateToObject, migrateState, getInitialState, hv]

/-- Witness for c3_amended at character 1 of the initial state with delta
250 and amount 7. -/
theorem c3_witness :
    (0 ≤ getIntimacy (updateIntimacy s0 1 250 5).state 1 ∧
     getIntimacy (updateIntimacy s0 1 250 5).state 1 ≤ 100) ∧
    (0 ≤ getIntimacy (increaseIntimacy s0 1 7 5).state 1 ∧
     getIntimacy (increaseIntimacy s0 1 7 5).state 1 ≤ 100) :=
  c3_amended s0 1 misaki 250 7 5 rfl (by decide) (by decide)

/-- Witness for c4_amended at character 1 of the initial state with the
out-of-range requested level 99. -/
theorem c4_witness :
    (1 ≤ getCharacterLevel (upgradeCharacterEquipment s0 1 5).1.state 1 ∧
     getCharacterLevel (upgradeCharacterEquipment s0 1 5).1.state 1 ≤ 5 ∧
     getCharacterLevel s0 1 ≤ getCharacterLevel (upgradeCharacterEquipment s0 1 5).1.state 1) ∧
    Option.map (fun ch => ch.equipment.level)
      (List.lookup 1 (upgradeEquipment s0 1 99 "上位装備" 5).state.characters) = some 99 ∧
    Option.map (fun ch => ch.equipment.level)
      (List.lookup 1 (setCharacterLevel s0 1 99 5).state.characters) = some 99 :=
  c4_amended s0 1 misaki 99 "上位装備" 5 rfl (by decide) (by decide)

/-- Witness for c7_load_atomic: the null snapshot fails leaving the initial
state untouched, and loading a serialized copy succeeds without error. -/
theorem c7_witness :
    loadState s0 none "fresh_p" 5
      = { state := s0, events := [], err := some LoadErr.nullSnapshot } ∧
    (loadState s0 (some (getCurrentState s0)) "fresh_p" 5).err = none :=
  ⟨(c7_load_atomic s0 none "fresh_p" 5).1 rfl,
   ((c7_load_atomic s0 (some (getCurrentState s0)) "fresh_p" 5).2 (getCurrentState s0) rfl).1⟩

/-- Witness for c8_migration: loading the old-version snapshot pOld (which
has no flags key) succeeds, flags come back as the empty default, and the
scene and version present in the snapshot are preserved. -/
theorem c8_witness :
    (loadState s0 (some pOld) "fresh_p" 7).err = none ∧
    (loadState s0 (some pOld) "fresh_p" 7).state.flags = [] ∧
    (loadState s0 (some pOld) "fresh_p" 7).state.currentScene = "scene_2" ∧
    (loadState s0 (some pOld) "fresh_p" 7).state.version = "0.9.0" :=
  have h := c8_migration s0 pOld "fresh_p" 7 (by decide) rfl
  ⟨h.1, h.2.1, h.2.2.2.2.2.1 "scene_2" rfl, h.2.2.1 "0.9.0" rfl⟩

/-- Witness for c10_amended at the unknown character id 99 of the initial
state. -/
theorem c10_witness :
    (updateCharacter s0 99 {} 5).state = s0 ∧
    (updateCharacter s0 99 {} 5).warnings = ["Character " ++ toString (99 : Nat) ++ " not found"] ∧
    (upgradeEquipment s0 99 3 "x" 5).warnings = [] :=
  have h := c10_amended s0 99 {} 3 "x" 4 (-2) "win" 10 5 rfl
  ⟨h.1, h.2.2.1, h.2.2.2.2.2.1⟩
